import Mathlib

/-!
Shallow embedding of the indicator aggregation and diagnostics engine of the
`vercoal` dashboard (`src/utils/metrics.py`, `src/utils/data_loader.py`,
`src/utils/filters.py`).

Tables are modelled as a list of column names together with a list of rows,
each row a function from column names to rational values (the numeric view of
a preprocessed table).  Python's `round(x, 2)` is modelled as rounding the
rational `100 * x` to the nearest integer, ties to even, then dividing by 100.
-/

namespace Vercoal

/-- Round a rational to the nearest integer, ties to even
(the rounding Python's built-in `round` performs on exact halves). -/
def roundHalfEven (q : ℚ) : ℤ :=
  if q - ⌊q⌋ < 1/2 then ⌊q⌋
  else if (1:ℚ)/2 < q - ⌊q⌋ then ⌊q⌋ + 1
  else if ⌊q⌋ % 2 = 0 then ⌊q⌋ else ⌊q⌋ + 1

/-- Model of Python `round(x, 2)`. -/
def round2 (q : ℚ) : ℚ := (roundHalfEven (q * 100) : ℚ) / 100

theorem roundHalfEven_le (q : ℚ) : (roundHalfEven q : ℚ) ≤ q + 1/2 := by
  unfold roundHalfEven
  have hf : (⌊q⌋ : ℚ) ≤ q := Int.floor_le q
  split
  · linarith
  · split
    · rename_i h1 h2
      push_cast
      linarith
    · split
      · linarith
      · rename_i h1 h2 _
        push_cast
        linarith [le_antisymm (le_of_not_lt h2) (le_of_not_lt h1)]

theorem le_roundHalfEven (q : ℚ) : q - 1/2 ≤ (roundHalfEven q : ℚ) := by
  unfold roundHalfEven
  have hf : q - 1 < (⌊q⌋ : ℚ) := by
    have := Int.sub_one_lt_floor q
    push_cast at this ⊢
    linarith
  split
  · rename_i h1
    linarith
  · split
    · push_cast
      linarith
    · split
      · rename_i h1 h2 _
        linarith [le_of_not_lt h1]
      · push_cast
        linarith

theorem roundHalfEven_intCast (n : ℤ) : roundHalfEven (n : ℚ) = n := by
  unfold roundHalfEven
  simp [Int.floor_intCast]

theorem round2_idem (q : ℚ) : round2 (round2 q) = round2 q := by
  unfold round2
  rw [div_mul_cancel₀ _ (by norm_num : (100:ℚ) ≠ 0), roundHalfEven_intCast]

theorem round2_nonneg {q : ℚ} (h : 0 ≤ q) : 0 ≤ round2 q := by
  unfold round2
  have h1 := le_roundHalfEven (q * 100)
  have h2 : (-1 : ℤ) < roundHalfEven (q * 100) := by
    have : (-1 : ℚ) < (roundHalfEven (q * 100) : ℚ) := by nlinarith
    exact_mod_cast this
  have : (0 : ℤ) ≤ roundHalfEven (q * 100) := by omega
  positivity

theorem round2_le_hundred {q : ℚ} (h : q ≤ 100) : round2 q ≤ 100 := by
  unfold round2
  have h1 := roundHalfEven_le (q * 100)
  have h2 : (roundHalfEven (q * 100) : ℚ) < 10001 := by nlinarith
  have h3 : roundHalfEven (q * 100) < 10001 := by exact_mod_cast h2
  have h4 : roundHalfEven (q * 100) ≤ 10000 := by omega
  have h5 : (roundHalfEven (q * 100) : ℚ) ≤ 10000 := by exact_mod_cast h4
  linarith

/-- Model of a pandas DataFrame restricted to what the metrics layer reads:
the set of column names present, and the rows as total functions from column
names to rational values. -/
structure DF where
  cols : List String
  rows : List (String → ℚ)

/-- `calcular_porcentaje(df, columna)` from `src/utils/metrics.py`:
0 when the column is absent or the table empty, otherwise
`round(sum(col) / len(df) * 100, 2)`. -/
def calcular_porcentaje (df : DF) (columna : String) : ℚ :=
  if columna ∉ df.cols ∨ df.rows.isEmpty then 0
  else round2 ((df.rows.map (fun r => r columna)).sum / df.rows.length * 100)

/-- `calcular_indice_grupo(df, columnas, pesos)` from `src/utils/metrics.py`:
filter to columns present in the table; weights default to all-1, otherwise
truncated to the number of present columns and padded with 1s; normalized to
sum 1; weighted sum of per-column percentages, rounded to 2 decimals. -/
def calcular_indice_grupo (df : DF) (columnas : List String)
    (pesos : Option (List ℚ) := none) : ℚ :=
  let columnas_existentes := columnas.filter (fun col => col ∈ df.cols)
  if columnas_existentes.isEmpty then 0
  else
    let pesos' : List ℚ :=
      match pesos with
      | none => List.replicate columnas_existentes.length 1
      | some ps =>
          let t := ps.take columnas_existentes.length
          t ++ List.replicate (columnas_existentes.length - t.length) 1
    let suma_pesos := pesos'.sum
    let pesos_norm := pesos'.map (fun p => p / suma_pesos)
    let valores := columnas_existentes.map (fun col => calcular_porcentaje df col)
    round2 ((valores.zip pesos_norm).map (fun vp => vp.1 * vp.2)).sum

/-- Positive accessibility columns (`calcular_indice_accesibilidad`). -/
def accCols : List String :=
  ["comedor_facil_Acceso", "vehiculo_puede_llegar_a_sitio"]

/-- Negative (inverted) accessibility columns. -/
def accColsNeg : List String :=
  ["trasbordo", "ingreso_apoyo_comunidad", "demora_entregas", "inocuidad_comprometida"]

/-- `df.copy()` with each listed column's 0/1 value replaced by `1 - v`
(the `df_neg_inv` built inside `calcular_indice_accesibilidad`). -/
def invertirCols (df : DF) (cs : List String) : DF :=
  ⟨df.cols, df.rows.map (fun r c => if c ∈ cs then 1 - r c else r c)⟩

/-- `calcular_indice_accesibilidad(df)` from `src/utils/metrics.py`. -/
def calcular_indice_accesibilidad (df : DF) : ℚ :=
  let pos := accCols.filter (fun c => c ∈ df.cols)
  let neg := accColsNeg.filter (fun c => c ∈ df.cols)
  if pos.isEmpty ∧ neg.isEmpty then 0
  else
    let indice_pos := if pos.isEmpty then 0 else calcular_indice_grupo df pos
    let indice_neg :=
      if neg.isEmpty then 0
      else calcular_indice_grupo (invertirCols df neg) neg
    let indice :=
      if ¬pos.isEmpty ∧ ¬neg.isEmpty then indice_pos * (6/10) + indice_neg * (4/10)
      else if ¬pos.isEmpty then indice_pos
      else indice_neg
    round2 indice

/-- Compliance columns (`calcular_indice_cumplimiento`). -/
def cumCols : List String :=
  ["entrega_en_dia_programado", "alimentos_debidamente_entregados"]

/-- `calcular_indice_cumplimiento(df)` from `src/utils/metrics.py`. -/
def calcular_indice_cumplimiento (df : DF) : ℚ :=
  let columnas_existentes := cumCols.filter (fun c => c ∈ df.cols)
  if columnas_existentes.isEmpty then 0
  else calcular_indice_grupo df columnas_existentes (some [6/10, 4/10])

/-- Vehicle columns (`calcular_indice_vehiculo`). -/
def vehCols : List String :=
  ["vehiculo_limpio_buen_estado", "alimentos_de_calidad_cantidad",
   "contenedores_para_cada_tipoalimento"]

/-- `calcular_indice_vehiculo(df)` from `src/utils/metrics.py`. -/
def calcular_indice_vehiculo (df : DF) : ℚ :=
  let columnas_existentes := vehCols.filter (fun c => c ∈ df.cols)
  if columnas_existentes.isEmpty then 0
  else calcular_indice_grupo df columnas_existentes (some [3/10, 4/10, 3/10])

/-- Attitude columns (`calcular_indice_actitudes`). -/
def actCols : List String :=
  ["actitud_conductor_respetuosa_colaborativa",
   "actitud_auxiliar_respetuosa_colaborativa",
   "actitud_gestora_respetuosa_colaborativa",
   "buena_disposicion_recibir_mercados",
   "comunicacion_efectiva",
   "resolucion_inconvenientes"]

/-- `calcular_indice_actitudes(df)` from `src/utils/metrics.py`. -/
def calcular_indice_actitudes (df : DF) : ℚ :=
  let columnas_existentes := actCols.filter (fun c => c ∈ df.cols)
  if columnas_existentes.isEmpty then 0
  else calcular_indice_grupo df columnas_existentes

/-- `calcular_indice_general(df)` from `src/utils/metrics.py`: average of the
four group indices, keeping only those strictly greater than 0. -/
def calcular_indice_general (df : DF) : ℚ :=
  let indices := [calcular_indice_accesibilidad df, calcular_indice_cumplimiento df,
                  calcular_indice_vehiculo df, calcular_indice_actitudes df]
  let indices_validos := indices.filter (fun i => 0 < i)
  if indices_validos.isEmpty then 0
  else round2 (indices_validos.sum / indices_validos.length)

/-- A problem entry produced by `identificar_problemas`:
`{'grupo', 'indicador', 'valor', 'columna'}`. -/
structure Problema where
  grupo : String
  indicador : String
  valor : ℚ
  columna : String
deriving DecidableEq, Repr

/-- `columnas_por_grupo` of `identificar_problemas`, flattened in dict
iteration order to (group, column) pairs. -/
def gruposColumnas : List (String × String) :=
  (("Accesibilidad", "comedor_facil_Acceso") ::
   ("Accesibilidad", "vehiculo_puede_llegar_a_sitio") ::
   ("Accesibilidad", "trasbordo") ::
   ("Accesibilidad", "ingreso_apoyo_comunidad") ::
   ("Accesibilidad", "demora_entregas") ::
   ("Accesibilidad", "inocuidad_comprometida") ::
   ("Cumplimiento", "entrega_en_dia_programado") ::
   ("Cumplimiento", "alimentos_debidamente_entregados") ::
   ("Vehículo", "vehiculo_limpio_buen_estado") ::
   ("Vehículo", "alimentos_de_calidad_cantidad") ::
   ("Vehículo", "contenedores_para_cada_tipoalimento") ::
   ("Actitudes", "actitud_conductor_respetuosa_colaborativa") ::
   ("Actitudes", "actitud_auxiliar_respetuosa_colaborativa") ::
   ("Actitudes", "actitud_gestora_respetuosa_colaborativa") ::
   ("Actitudes", "buena_disposicion_recibir_mercados") ::
   ("Actitudes", "comunicacion_efectiva") ::
   ("Actitudes", "resolucion_inconvenientes") :: [])

/-- `nombres_legibles` of `identificar_problemas`. -/
def nombresLegibles : List (String × String) :=
  (("comedor_facil_Acceso", "Acceso Fácil al Comedor") ::
   ("vehiculo_puede_llegar_a_sitio", "Vehículo Llega Directamente") ::
   ("trasbordo", "Necesidad de Trasbordo") ::
   ("ingreso_apoyo_comunidad", "Necesidad de Apoyo Comunitario") ::
   ("demora_entregas", "Demoras en Otras Entregas") ::
   ("inocuidad_comprometida", "Inocuidad Comprometida") ::
   ("entrega_en_dia_programado", "Entrega en Día Programado") ::
   ("alimentos_debidamente_entregados", "Verificación de Alimentos") ::
   ("vehiculo_limpio_buen_estado", "Vehículo Limpio y en Buen Estado") ::
   ("alimentos_de_calidad_cantidad", "Calidad y Cantidad de Alimentos") ::
   ("contenedores_para_cada_tipoalimento", "Contenedores Adecuados") ::
   ("actitud_conductor_respetuosa_colaborativa", "Actitud del Conductor") ::
   ("actitud_auxiliar_respetuosa_colaborativa", "Actitud del Auxiliar") ::
   ("actitud_gestora_respetuosa_colaborativa", "Actitud de la Gestora") ::
   ("buena_disposicion_recibir_mercados", "Disposición para Recibir") ::
   ("comunicacion_efectiva", "Comunicación Efectiva") ::
   ("resolucion_inconvenientes", "Resolución de Inconvenientes") :: [])

/-- `nombres_legibles.get(col, col)`. -/
def legible (col : String) : String :=
  match nombresLegibles.lookup col with
  | some n => n
  | none => col

/-- `indicadores_negativos` of `identificar_problemas`. -/
def indicadoresNegativos : List String :=
  ["trasbordo", "ingreso_apoyo_comunidad", "demora_entregas", "inocuidad_comprometida"]

/-- The polarity-adjusted value `identificar_problemas` evaluates for a column:
`100 - percentage` for negative indicators, the raw percentage otherwise. -/
def valorEvaluado (df : DF) (col : String) : ℚ :=
  if col ∈ indicadoresNegativos then 100 - calcular_porcentaje df col
  else calcular_porcentaje df col

/-- The label `identificar_problemas` attaches to a column. -/
def nombreEvaluado (col : String) : String :=
  if col ∈ indicadoresNegativos then "Ausencia de " ++ legible col
  else legible col

/-- The entry `identificar_problemas` appends for group `g` and column `c`. -/
def mkProblema (df : DF) (g c : String) : Problema :=
  ⟨g, nombreEvaluado c, valorEvaluado df c, c⟩

/-- The classification loop of `identificar_problemas`, over the flattened
(group, column) pairs, producing the unsorted (criticos, alertas) lists in
append order. -/
def clasificar (df : DF) (umbral_alerta umbral_critico : ℚ) :
    List (String × String) → List Problema × List Problema
  | [] => ([], [])
  | (g, c) :: rest =>
      let acc := clasificar df umbral_alerta umbral_critico rest
      if c ∈ df.cols then
        if valorEvaluado df c < umbral_critico then
          (mkProblema df g c :: acc.1, acc.2)
        else if valorEvaluado df c < umbral_alerta then
          (acc.1, mkProblema df g c :: acc.2)
        else acc
      else acc

/-- Sorting key of `identificar_problemas`: ascending by `valor`. -/
def valorLe (a b : Problema) : Prop := a.valor ≤ b.valor

instance : DecidableRel valorLe := fun a b => inferInstanceAs (Decidable (a.valor ≤ b.valor))

instance : IsTotal Problema valorLe := ⟨fun a b => le_total a.valor b.valor⟩

instance : IsTrans Problema valorLe := ⟨fun _ _ _ h1 h2 => le_trans h1 h2⟩

/-- `identificar_problemas(df, umbral_alerta=80, umbral_critico=70)` from
`src/utils/metrics.py`: classify every tracked existing indicator, then sort
both lists ascending by value (Python's stable sort, modelled by the stable
`insertionSort`). -/
def identificar_problemas (df : DF) (umbral_alerta : ℚ := 80)
    (umbral_critico : ℚ := 70) : List Problema × List Problema :=
  let p := clasificar df umbral_alerta umbral_critico gruposColumnas
  (p.1.insertionSort valorLe, p.2.insertionSort valorLe)

/-- `needle` occurs at the start of `hay` (character lists). -/
def hayStarts : List Char → List Char → Bool
  | [], _ => true
  | _ :: _, [] => false
  | a :: as, b :: bs => a == b && hayStarts as bs

/-- `needle` occurs somewhere inside the character list. -/
def hayContains (needle : List Char) : List Char → Bool
  | [] => needle.isEmpty
  | b :: bs => hayStarts needle (b :: bs) || hayContains needle bs

/-- Python's substring test `needle in hay`. -/
def strContains (hay needle : String) : Bool := hayContains needle.data hay.data

/-- The recommendation dictionary returned by `generar_recomendaciones`. -/
structure Recomendaciones where
  corto_plazo : List String
  mediano_plazo : List String
  largo_plazo : List String
deriving DecidableEq, Repr

/-- The three fixed long-term statements of `generar_recomendaciones`. -/
def largoPlazoFijo : List String :=
  ["Implementar un sistema integral de monitoreo y evaluación continua del proceso de entrega.",
   "Establecer un programa de capacitación permanente para todo el personal involucrado en el proceso.",
   "Desarrollar un plan de mejora continua con revisiones trimestrales de los indicadores clave."]

/-- Python's `list(dict.fromkeys(l))`: drop duplicates keeping the first
occurrence of each string, preserving order. -/
def pyDedup (l : List String) : List String :=
  l.foldl (fun acc x => if x ∈ acc then acc else acc ++ [x]) []

/-- One iteration of the `for problema in todos_problemas` loop of
`generar_recomendaciones`: the strings it appends to `corto_plazo` and to
`mediano_plazo` (at most one in total). `problemCols` is
`[p['columna'] for p in problemas]`. -/
def recPaso (problemCols : List String) (p : Problema) : List String × List String :=
  let ind := p.columna
  if ind = "comedor_facil_Acceso" ∨ ind = "vehiculo_puede_llegar_a_sitio" then
    let r := "Realizar un estudio detallado de rutas y accesos para mejorar el acceso a los comedores con dificultades."
    if ind ∈ problemCols then ([r], []) else ([], [r])
  else if ind = "trasbordo" then
    ([], ["Evaluar la posibilidad de utilizar vehículos más pequeños para zonas de difícil acceso."])
  else if ind = "ingreso_apoyo_comunidad" then
    ([], ["Establecer acuerdos formales con líderes comunitarios para facilitar el apoyo en las entregas."])
  else if ind = "demora_entregas" then
    let r := "Optimizar la programación de rutas considerando los tiempos adicionales para comedores de difícil acceso."
    if ind ∈ problemCols then ([r], []) else ([], [r])
  else if ind = "inocuidad_comprometida" then
    (["Implementar protocolos específicos para preservar la inocuidad de los alimentos en condiciones de trasbordos."], [])
  else if ind = "entrega_en_dia_programado" then
    let r := "Establecer un sistema de seguimiento en tiempo real para monitorear el cumplimiento de entregas."
    if ind ∈ problemCols then ([r], []) else ([], [r])
  else if ind = "alimentos_debidamente_entregados" then
    ([], ["Implementar un sistema digital de verificación de alimentos con listas de chequeo electrónicas."])
  else if ind = "vehiculo_limpio_buen_estado" then
    let r := "Establecer un protocolo de verificación de limpieza y estado del vehículo antes de cada jornada."
    if ind ∈ problemCols then ([r], []) else ([], [r])
  else if ind = "alimentos_de_calidad_cantidad" then
    (["Reforzar los controles de calidad de alimentos antes de su carga en los vehículos."], [])
  else if ind = "contenedores_para_cada_tipoalimento" then
    ([], ["Estandarizar el uso de contenedores específicos para cada tipo de alimento con etiquetado claro."])
  else if strContains ind "actitud" then
    ([], ["Implementar talleres de sensibilización y capacitación en servicio al cliente y trabajo en equipo."])
  else if ind = "buena_disposicion_recibir_mercados" then
    ([], ["Desarrollar protocolos claros para el proceso de recepción y establecer tiempos estimados para cada etapa."])
  else if ind = "comunicacion_efectiva" then
    ([], ["Establecer canales de comunicación efectivos y un glosario común para todos los actores involucrados."])
  else if ind = "resolucion_inconvenientes" then
    ([], ["Implementar un sistema de registro y seguimiento de incidencias para asegurar su resolución."])
  else ([], [])

/-- The whole `for problema in todos_problemas` loop, in iteration order. -/
def recLoop (problemCols : List String) : List Problema → List String × List String
  | [] => ([], [])
  | p :: rest =>
      let s := recPaso problemCols p
      let acc := recLoop problemCols rest
      (s.1 ++ acc.1, s.2 ++ acc.2)

/-- `generar_recomendaciones(problemas, alertas)` from `src/utils/metrics.py`:
run the loop over `problemas + alertas`, overwrite `largo_plazo` with the
three fixed statements, then deduplicate each horizon list. -/
def generar_recomendaciones (problemas alertas : List Problema) : Recomendaciones :=
  let todos := problemas ++ alertas
  let problemCols := problemas.map (fun p => p.columna)
  let cm := recLoop problemCols todos
  ⟨pyDedup cm.1, pyDedup cm.2, pyDedup largoPlazoFijo⟩

/-- The case-insensitive boolean mapping of `preprocess_data`
(`src/utils/data_loader.py`), keys already uppercase. -/
def mapeoBooleano : List (String × ℤ) :=
  [("SI", 1), ("NO", 0), ("S", 1), ("N", 0),
   ("TRUE", 1), ("FALSE", 0), ("VERDADERO", 1), ("FALSO", 0),
   ("NAN", 0), ("", 0)]

/-- Python's `str.upper()` (character-wise uppercasing). -/
def pyUpper (s : String) : String := ⟨s.data.map Char.toUpper⟩

/-- What `preprocess_data` does to one cell of an object-dtype
boolean-indicator column: `astype(str).str.upper().map(mapeo)` sends unmapped
values to NaN, and `pd.to_numeric(..., errors='coerce').fillna(0).astype(int)`
then turns that NaN into 0 while keeping mapped 0/1 values. -/
def preprocessBoolCell (s : String) : ℤ :=
  match mapeoBooleano.lookup (pyUpper s) with
  | some v => v
  | none => 0

/-- One day in nanoseconds (pandas timestamps are nanosecond-resolution). -/
def nsDia : ℤ := 86400000000000

/-- One second in nanoseconds. -/
def nsSegundo : ℤ := 1000000000

/-- `apply_date_filter(df, start_date, end_date)` from `src/utils/filters.py`.
Rows are abstract; `fecha r` is the row's parsed date as nanoseconds since
the epoch, `none` for a null/unparsable date (NaT after
`pd.to_datetime(..., errors='coerce')`).  `hasFecha` models whether the
`fecha` column exists; `rango` is `some (start, end)` when both bounds are
given (both `start_date` and `end_date` truthy) and `none` otherwise. -/
def apply_date_filter {α : Type} (hasFecha : Bool) (fecha : α → Option ℤ)
    (rows : List α) (rango : Option (ℤ × ℤ)) : List α :=
  if ¬hasFecha ∨ rows.isEmpty then rows
  else
    let rows1 := rows.filter (fun r => (fecha r).isSome)
    if rows1.isEmpty then rows1
    else
      match rango with
      | none => rows1
      | some se =>
          let fin := se.2 + nsDia - nsSegundo
          rows1.filter (fun r =>
            match fecha r with
            | some t => decide (se.1 ≤ t) && decide (t ≤ fin)
            | none => false)

/-! ### Concrete tables used in scenario parts and witnesses -/

/-- 10-row table: `entrega_en_dia_programado` is 1 in 7 rows and 0 in 3. -/
def df10 : DF :=
  ⟨["entrega_en_dia_programado"],
   List.replicate 7 (fun c => if c = "entrega_en_dia_programado" then (1:ℚ) else 0) ++
   List.replicate 3 (fun _ => (0:ℚ))⟩

/-- 3-row table where `trasbordo` is 1 in every row. -/
def dfTras : DF :=
  ⟨["trasbordo"], List.replicate 3 (fun c => if c = "trasbordo" then (1:ℚ) else 0)⟩

/-- 1-row table having only columns `b` (value 1) and `c` (value 0). -/
def dfBC : DF := ⟨["b", "c"], [fun s => if s = "b" then (1:ℚ) else 0]⟩

/-- 1-row table having only the column `entrega_en_dia_programado`, value 1. -/
def dfCum : DF :=
  ⟨["entrega_en_dia_programado"],
   [fun s => if s = "entrega_en_dia_programado" then (1:ℚ) else 0]⟩

/-! ### Helper lemmas -/

theorem round2_zero : round2 0 = 0 := by
  unfold round2 roundHalfEven
  norm_num

theorem sum_col_bounds (rows : List (String → ℚ)) (c : String)
    (h : ∀ r ∈ rows, r c = 0 ∨ r c = 1) :
    0 ≤ (rows.map (fun r => r c)).sum ∧
      (rows.map (fun r => r c)).sum ≤ rows.length := by
  induction rows with
  | nil => simp
  | cons r rest ih =>
      have hr := h r (List.mem_cons_self r rest)
      have hrest := ih (fun x hx => h x (List.mem_cons_of_mem r hx))
      simp only [List.map_cons, List.sum_cons, List.length_cons]
      push_cast
      rcases hr with h0 | h1 <;> constructor <;> [linarith [hrest.1]; linarith [hrest.2];
        linarith [hrest.1]; linarith [hrest.2]]

theorem sum_col_all_one (rows : List (String → ℚ)) (c : String)
    (h : ∀ r ∈ rows, r c = 1) :
    (rows.map (fun r => r c)).sum = rows.length := by
  induction rows with
  | nil => simp
  | cons r rest ih =>
      have hr := h r (List.mem_cons_self r rest)
      have hrest := ih (fun x hx => h x (List.mem_cons_of_mem r hx))
      simp only [List.map_cons, List.sum_cons, List.length_cons, hr, hrest]
      push_cast
      ring

/-! ### C5: contract of `calcular_porcentaje` -/

/-- **C5.** `calcular_porcentaje` returns 0 when the column is absent or the
table is empty; otherwise it is `round2` of `100 * (column sum) / row count`;
and whenever the column holds only 0/1 values the result lies in `[0, 100]`. -/
theorem C5_calcular_porcentaje_contract (df : DF) (c : String) :
    (c ∉ df.cols ∨ df.rows = [] → calcular_porcentaje df c = 0) ∧
    (c ∈ df.cols → df.rows ≠ [] →
      calcular_porcentaje df c =
        round2 ((df.rows.map (fun r => r c)).sum / df.rows.length * 100)) ∧
    ((∀ r ∈ df.rows, r c = 0 ∨ r c = 1) →
      0 ≤ calcular_porcentaje df c ∧ calcular_porcentaje df c ≤ 100) := by
  refine ⟨?_, ?_, ?_⟩
  · intro h
    unfold calcular_porcentaje
    rw [if_pos]
    rcases h with h | h
    · exact Or.inl h
    · exact Or.inr (by simp [h])
  · intro h1 h2
    unfold calcular_porcentaje
    rw [if_neg]
    push_neg
    exact ⟨h1, by simpa [List.isEmpty_iff] using h2⟩
  · intro h
    unfold calcular_porcentaje
    split
    · norm_num
    · rename_i hc
      push_neg at hc
      have hne : df.rows ≠ [] := by simpa [List.isEmpty_iff] using hc.2
      have hlen : (0:ℚ) < df.rows.length := by
        have := List.length_pos.mpr hne
        exact_mod_cast this
      obtain ⟨hs0, hs1⟩ := sum_col_bounds df.rows c h
      constructor
      · apply round2_nonneg
        positivity
      · apply round2_le_hundred
        rw [div_mul_eq_mul_div, div_le_iff₀ hlen]
        linarith

/-- Closed witness for C5 at a concrete table. -/
theorem C5_witness :
    calcular_porcentaje df10 "entrega_en_dia_programado" =
        round2 ((df10.rows.map (fun r => r "entrega_en_dia_programado")).sum /
          df10.rows.length * 100) ∧
      0 ≤ calcular_porcentaje df10 "entrega_en_dia_programado" ∧
      calcular_porcentaje df10 "entrega_en_dia_programado" ≤ 100 :=
  ⟨(C5_calcular_porcentaje_contract df10 "entrega_en_dia_programado").2.1
      (by decide) (by simp [df10]),
   (C5_calcular_porcentaje_contract df10 "entrega_en_dia_programado").2.2
      (by decide)⟩

/-! ### C7: boolean-cell preprocessing -/

/-- **C7 counterexample.** The already-numeric string `"1"` does not keep its
numeric value: the mapping sends it to NaN (it is not a key), and the numeric
coercion's `fillna(0)` then makes it 0, not 1. -/
theorem C7_counterexample :
    preprocessBoolCell "1" = 0 ∧ preprocessBoolCell "1" ≠ 1 := by decide

theorem lookup_cons_eqn {β : Type} (k a : String) (b : β) (l : List (String × β)) :
    List.lookup k ((a, b) :: l) = if k == a then some b else List.lookup k l := by
  simp only [List.lookup]
  cases h : k == a <;> simp

theorem lookup_val_mem {β : Type} (k : String) (l : List (String × β)) (v : β)
    (h : List.lookup k l = some v) : ∃ p ∈ l, p.2 = v := by
  induction l with
  | nil => simp [List.lookup] at h
  | cons p rest ih =>
      rcases p with ⟨a, b⟩
      rw [lookup_cons_eqn] at h
      by_cases hk : (k == a) = true
      · rw [if_pos hk] at h
        exact ⟨(a, b), List.mem_cons_self _ _, by injection h⟩
      · rw [if_neg hk] at h
        obtain ⟨p, hp, hv⟩ := ih h
        exact ⟨p, List.mem_cons_of_mem _ hp, hv⟩

/-- **C7 (amended).** The yes-values map to 1 and the no-values to 0
case-insensitively; any value whose uppercasing is not a key of the mapping —
including parseable numeric strings — becomes 0 (map to NaN, then numeric
coercion with `fillna(0)`); the column afterwards holds only the integers
0 and 1. -/
theorem C7_preprocess_bool_cell (s : String) :
    (pyUpper s ∈ ["SI", "S", "TRUE", "VERDADERO"] → preprocessBoolCell s = 1) ∧
    (pyUpper s ∈ ["NO", "N", "FALSE", "FALSO", "NAN", ""] → preprocessBoolCell s = 0) ∧
    ((mapeoBooleano.lookup (pyUpper s)).isNone → preprocessBoolCell s = 0) ∧
    (preprocessBoolCell s = 0 ∨ preprocessBoolCell s = 1) := by
  refine ⟨?_, ?_, ?_, ?_⟩
  · intro h
    simp only [List.mem_cons, List.not_mem_nil, or_false] at h
    unfold preprocessBoolCell
    rcases h with h | h | h | h <;> rw [h] <;> decide
  · intro h
    simp only [List.mem_cons, List.not_mem_nil, or_false] at h
    unfold preprocessBoolCell
    rcases h with h | h | h | h | h | h <;> rw [h] <;> decide
  · intro h
    unfold preprocessBoolCell
    rw [Option.isNone_iff_eq_none] at h
    rw [h]
  · unfold preprocessBoolCell
    rcases hl : mapeoBooleano.lookup (pyUpper s) with _ | v
    · exact Or.inl rfl
    · obtain ⟨p, hp, hv⟩ := lookup_val_mem _ _ _ hl
      have h01 : p.2 = 0 ∨ p.2 = 1 := by
        revert hp
        simp only [mapeoBooleano, List.mem_cons, List.not_mem_nil, or_false]
        rintro (h | h | h | h | h | h | h | h | h | h) <;> simp [h]
      rw [hv] at h01
      exact h01

/-- Closed witness for C7: `"Si"` maps to 1 case-insensitively. -/
theorem C7_witness : preprocessBoolCell "Si" = 1 :=
  (C7_preprocess_bool_cell "Si").1 (by decide)

/-! ### C10: dropping invalid dates even without a requested range -/

/-- **C10.** With no date range requested, `apply_date_filter` still drops
every row whose `fecha` failed to parse: when at least one row has an invalid
date the result is exactly the valid-date rows, a strictly smaller table. -/
theorem C10_apply_date_filter_drops_invalid {α : Type} (fecha : α → Option ℤ)
    (rows : List α) (h : ∃ r ∈ rows, fecha r = none) :
    apply_date_filter true fecha rows none =
        rows.filter (fun r => (fecha r).isSome) ∧
      (apply_date_filter true fecha rows none).length < rows.length := by
  obtain ⟨r0, hr0, hr0none⟩ := h
  have hne : rows ≠ [] := List.ne_nil_of_mem hr0
  have heq : apply_date_filter true fecha rows none =
      rows.filter (fun r => (fecha r).isSome) := by
    simp [apply_date_filter, List.isEmpty_iff, hne]
  refine ⟨heq, ?_⟩
  rw [heq]
  apply List.length_filter_lt_length_iff_exists.mpr
  exact ⟨r0, hr0, by simp [hr0none]⟩

/-- Closed witness for C10 at a concrete two-row table. -/
theorem C10_witness :
    apply_date_filter true (fun t : Option ℤ => t) [some 0, none] none =
        [some (0:ℤ)] ∧
      (apply_date_filter true (fun t : Option ℤ => t) [some 0, none] none).length < 2 :=
  (C10_apply_date_filter_drops_invalid (fun t : Option ℤ => t) [some 0, none]
    ⟨none, by decide, rfl⟩)

/-! ### C9: a table with no valid dates -/

/-- **C9 counterexample.** A one-row table whose only `fecha` is invalid does
not pass through unchanged: the filter returns the emptied table. -/
theorem C9_counterexample :
    apply_date_filter true (fun t : Option ℤ => t) [(none : Option ℤ)]
        (some (0, 0)) = [] ∧
      apply_date_filter true (fun t : Option ℤ => t) [(none : Option ℤ)]
        (some (0, 0)) ≠ [(none : Option ℤ)] := by decide

/-- **C9 (amended).** When the `fecha` column exists but contains no valid
dates, `apply_date_filter` returns the emptied table (every row is dropped by
the invalid-date cleanup) for any requested range — it does not raise, but it
does not pass the table through either. -/
theorem C9_no_valid_dates_empties {α : Type} (fecha : α → Option ℤ)
    (rows : List α) (rango : Option (ℤ × ℤ))
    (h : ∀ r ∈ rows, fecha r = none) :
    apply_date_filter true fecha rows rango = [] := by
  have hfil : rows.filter (fun r => (fecha r).isSome) = [] := by
    rw [List.filter_eq_nil_iff]
    intro a ha
    simp [h a ha]
  by_cases hne : rows = []
  · simp [apply_date_filter, hne]
  · simp [apply_date_filter, List.isEmpty_iff, hne, hfil]

/-- Closed witness for C9's amended statement. -/
theorem C9_witness :
    apply_date_filter true (fun t : Option ℤ => t) [(none : Option ℤ), none]
        (some (0, 5)) = [] :=
  C9_no_valid_dates_empties (fun t : Option ℤ => t) [none, none] (some (0, 5))
    (by decide)

/-! ### C8: end-of-day boundary of the date filter -/

/-- **C8 counterexample.** With `start = end = ` midnight of day 0, the
timestamp 23:59:59.5 of the end day lies at or after the start and strictly
before the 24:00 boundary, yet the filter drops that row: the code keeps only
timestamps up to `end + 1 day - 1 second`. -/
theorem C8_counterexample :
    (0 ≤ (86399500000000:ℤ) ∧ (86399500000000:ℤ) < 0 + nsDia) ∧
      apply_date_filter true (fun t : Option ℤ => t) [some 86399500000000]
        (some (0, 0)) = [] := by decide

/-- **C8 (amended).** For rows with valid dates, the filter keeps exactly the
rows with `start ≤ fecha ≤ end + 1 day − 1 second`: the end day is included
only through its last whole second, and timestamps strictly inside the final
second of the end day (after 23:59:59) are excluded. -/
theorem C8_apply_date_filter_range {α : Type} (fecha : α → Option ℤ)
    (rows : List α) (s e : ℤ) (h : ∀ r ∈ rows, (fecha r).isSome) :
    apply_date_filter true fecha rows (some (s, e)) =
      rows.filter (fun r =>
        match fecha r with
        | some t => decide (s ≤ t) && decide (t ≤ e + nsDia - nsSegundo)
        | none => false) := by
  by_cases hne : rows = []
  · simp [apply_date_filter, hne]
  · have hall : rows.filter (fun r => (fecha r).isSome) = rows :=
      List.filter_eq_self.mpr (fun a ha => by simpa using h a ha)
    simp [apply_date_filter, List.isEmpty_iff, hne, hall]

/-- Closed witness for C8's amended statement: 23:59:59 of the end day is
kept, an invalid-date row is dropped by hypothesis shape. -/
theorem C8_witness :
    apply_date_filter true (fun t : Option ℤ => t)
        [some 86399000000000, some (86400000000000 + 5)] (some (0, 0)) =
      [some (86399000000000:ℤ)] := by
  rw [C8_apply_date_filter_range (fun t : Option ℤ => t)
    [some 86399000000000, some (86400000000000 + 5)] 0 0 (by decide)]
  decide

/-! ### C3: weighting of `calcular_indice_grupo` -/

/-- Modelled from the spec's words for claim C3, for comparison with
`calcular_indice_grupo`: every column present in the table keeps the weight
associated with it in the original column list, renormalized over exactly the
present columns (absent columns drop out of numerator and denominator). -/
def specIndiceGrupo (df : DF) (columnas : List String) (pesos : List ℚ) : ℚ :=
  let presentes := (columnas.zip pesos).filter (fun cw => cw.1 ∈ df.cols)
  if presentes.isEmpty then 0
  else
    let s := (presentes.map (fun cw => cw.2)).sum
    round2 ((presentes.map (fun cw => calcular_porcentaje df cw.1 * (cw.2 / s))).sum)

/-- **C3 counterexample.** Request columns `a, b, c` with weights `1, 2, 3` on
a table having only `b` (100%) and `c` (0%).  The code truncates the weight
list positionally, giving `b` weight 1/3 and `c` weight 2/3 (result 33.33),
while the claim's own-weight renormalization would give `b` weight 2/5 and
`c` weight 3/5 (result 40). -/
theorem C3_counterexample :
    calcular_indice_grupo dfBC ["a", "b", "c"] (some [1, 2, 3]) = 3333/100 ∧
      specIndiceGrupo dfBC ["a", "b", "c"] [1, 2, 3] = 40 ∧
      calcular_indice_grupo dfBC ["a", "b", "c"] (some [1, 2, 3]) ≠
        specIndiceGrupo dfBC ["a", "b", "c"] [1, 2, 3] := by
  have h1 : calcular_indice_grupo dfBC ["a", "b", "c"] (some [1, 2, 3]) = 3333/100 := by
    simp [calcular_indice_grupo, dfBC, List.filter, calcular_porcentaje]
    norm_num [round2, roundHalfEven]
  have h2 : specIndiceGrupo dfBC ["a", "b", "c"] [1, 2, 3] = 40 := by
    simp [specIndiceGrupo, dfBC, List.filter, calcular_porcentaje]
    norm_num [round2, roundHalfEven]
  refine ⟨h1, h2, ?_⟩
  rw [h1, h2]
  norm_num

theorem zip_map_mul (cols : List String) (ws : List ℚ) (f : String → ℚ) (s : ℚ) :
    (((cols.map f).zip (ws.map (fun w => w / s))).map (fun vp => vp.1 * vp.2)) =
      ((cols.zip ws).map (fun cw => f cw.1 * (cw.2 / s))) := by
  induction cols generalizing ws with
  | nil => simp
  | cons c rest ih =>
      cases ws with
      | nil => simp
      | cons w wrest => simp [ih]

theorem indice_grupo_take (df : DF) (columnas : List String) (ps : List ℚ)
    (hne : columnas.filter (fun c => c ∈ df.cols) ≠ [])
    (hlen : (columnas.filter (fun c => c ∈ df.cols)).length ≤ ps.length) :
    calcular_indice_grupo df columnas (some ps) =
      round2 ((((columnas.filter (fun c => c ∈ df.cols)).zip
          (ps.take (columnas.filter (fun c => c ∈ df.cols)).length)).map
        (fun cw => calcular_porcentaje df cw.1 *
          (cw.2 / (ps.take (columnas.filter (fun c => c ∈ df.cols)).length).sum))).sum) := by
  have htake : ps.take (columnas.filter (fun c => c ∈ df.cols)).length ++
      List.replicate ((columnas.filter (fun c => c ∈ df.cols)).length -
        (ps.take (columnas.filter (fun c => c ∈ df.cols)).length).length) 1 =
      ps.take (columnas.filter (fun c => c ∈ df.cols)).length := by
    rw [List.length_take, Nat.min_eq_left hlen]
    simp
  unfold calcular_indice_grupo
  rw [if_neg (by simp [List.isEmpty_iff, hne])]
  simp only [htake]
  rw [zip_map_mul]

/-- **C3 (amended).** The code matches weights to present columns by position
in the filtered list — the first `k` given weights go to the `k` present
columns in order, so an absent column makes later columns inherit earlier
columns' weights.  Only when every requested column is present does each
column keep its own associated weight divided by the total weight, as the
original claim asserted. -/
theorem C3_indice_grupo_weights (df : DF) (columnas : List String) (ps : List ℚ) :
    (columnas.filter (fun c => c ∈ df.cols) ≠ [] →
      (columnas.filter (fun c => c ∈ df.cols)).length ≤ ps.length →
      calcular_indice_grupo df columnas (some ps) =
        round2 ((((columnas.filter (fun c => c ∈ df.cols)).zip
            (ps.take (columnas.filter (fun c => c ∈ df.cols)).length)).map
          (fun cw => calcular_porcentaje df cw.1 *
            (cw.2 / (ps.take (columnas.filter (fun c => c ∈ df.cols)).length).sum))).sum)) ∧
    ((∀ c ∈ columnas, c ∈ df.cols) → columnas ≠ [] → ps.length = columnas.length →
      calcular_indice_grupo df columnas (some ps) =
        round2 (((columnas.zip ps).map
          (fun cw => calcular_porcentaje df cw.1 * (cw.2 / ps.sum))).sum)) := by
  constructor
  · exact indice_grupo_take df columnas ps
  · intro hall hne hplen
    have hfil : columnas.filter (fun c => c ∈ df.cols) = columnas :=
      List.filter_eq_self.mpr (fun a ha => by simpa using hall a ha)
    have h1 := indice_grupo_take df columnas ps (by rw [hfil]; exact hne)
      (by rw [hfil, hplen])
    rw [hfil] at h1
    rw [← hplen, List.take_length] at h1
    exact h1

/-- Closed witness for C3's amended statement: both requested columns present,
each keeps its own weight over the total. -/
theorem C3_witness :
    calcular_indice_grupo dfBC ["b", "c"] (some [2, 3]) =
      round2 (((["b", "c"].zip [(2:ℚ), 3]).map
        (fun cw => calcular_porcentaje dfBC cw.1 * (cw.2 / [(2:ℚ), 3].sum))).sum) :=
  (C3_indice_grupo_weights dfBC ["b", "c"] [2, 3]).2 (by decide) (by decide) (by decide)

/-! ### C4: the overall index -/

theorem round2_fix_indice_grupo (df : DF) (cs : List String) (ps : Option (List ℚ)) :
    round2 (calcular_indice_grupo df cs ps) = calcular_indice_grupo df cs ps := by
  simp only [calcular_indice_grupo]
  split
  · exact round2_zero
  · exact round2_idem _

theorem round2_fix_cumplimiento (df : DF) :
    round2 (calcular_indice_cumplimiento df) = calcular_indice_cumplimiento df := by
  simp only [calcular_indice_cumplimiento]
  split
  · exact round2_zero
  · exact round2_fix_indice_grupo _ _ _

theorem acc_zero_of_absent (df : DF) (h1 : ∀ c ∈ accCols, c ∉ df.cols)
    (h2 : ∀ c ∈ accColsNeg, c ∉ df.cols) : calcular_indice_accesibilidad df = 0 := by
  have e1 : accCols.filter (fun c => c ∈ df.cols) = [] :=
    List.filter_eq_nil_iff.mpr (fun a ha => by simp [h1 a ha])
  have e2 : accColsNeg.filter (fun c => c ∈ df.cols) = [] :=
    List.filter_eq_nil_iff.mpr (fun a ha => by simp [h2 a ha])
  simp [calcular_indice_accesibilidad, e1, e2]

theorem veh_zero_of_absent (df : DF) (h : ∀ c ∈ vehCols, c ∉ df.cols) :
    calcular_indice_vehiculo df = 0 := by
  have e : vehCols.filter (fun c => c ∈ df.cols) = [] :=
    List.filter_eq_nil_iff.mpr (fun a ha => by simp [h a ha])
  simp [calcular_indice_vehiculo, e]

theorem act_zero_of_absent (df : DF) (h : ∀ c ∈ actCols, c ∉ df.cols) :
    calcular_indice_actitudes df = 0 := by
  have e : actCols.filter (fun c => c ∈ df.cols) = [] :=
    List.filter_eq_nil_iff.mpr (fun a ha => by simp [h a ha])
  simp [calcular_indice_actitudes, e]

/-- **C4.** The overall index is the 2-decimal-rounded arithmetic mean of
exactly the strictly positive group indices, 0 when no group index is
positive (in particular when all four are 0); and for a table with no
accessibility, vehicle or attitude columns but a positive compliance index,
the overall index equals the compliance index alone. -/
theorem C4_indice_general (df : DF) :
    (([calcular_indice_accesibilidad df, calcular_indice_cumplimiento df,
        calcular_indice_vehiculo df, calcular_indice_actitudes df].filter
          (fun i => 0 < i)) ≠ [] →
      calcular_indice_general df =
        round2 ((([calcular_indice_accesibilidad df, calcular_indice_cumplimiento df,
          calcular_indice_vehiculo df, calcular_indice_actitudes df].filter
            (fun i => 0 < i)).sum) /
          (([calcular_indice_accesibilidad df, calcular_indice_cumplimiento df,
            calcular_indice_vehiculo df, calcular_indice_actitudes df].filter
              (fun i => 0 < i)).length))) ∧
    (calcular_indice_accesibilidad df = 0 → calcular_indice_cumplimiento df = 0 →
      calcular_indice_vehiculo df = 0 → calcular_indice_actitudes df = 0 →
      calcular_indice_general df = 0) ∧
    ((∀ c ∈ accCols, c ∉ df.cols) → (∀ c ∈ accColsNeg, c ∉ df.cols) →
      (∀ c ∈ vehCols, c ∉ df.cols) → (∀ c ∈ actCols, c ∉ df.cols) →
      0 < calcular_indice_cumplimiento df →
      calcular_indice_general df = calcular_indice_cumplimiento df) := by
  refine ⟨?_, ?_, ?_⟩
  · intro hne
    simp only [calcular_indice_general]
    rw [if_neg (by simp [List.isEmpty_iff, hne])]
  · intro h1 h2 h3 h4
    simp [calcular_indice_general, h1, h2, h3, h4, List.filter]
  · intro h1 h2 h3 h4 hcum
    have e1 := acc_zero_of_absent df h1 h2
    have e3 := veh_zero_of_absent df h3
    have e4 := act_zero_of_absent df h4
    have hfil : [calcular_indice_accesibilidad df, calcular_indice_cumplimiento df,
        calcular_indice_vehiculo df, calcular_indice_actitudes df].filter
          (fun i => 0 < i) = [calcular_indice_cumplimiento df] := by
      simp [e1, e3, e4, List.filter, hcum]
    simp only [calcular_indice_general, hfil]
    simp only [List.isEmpty_cons, List.sum_cons, List.sum_nil, List.length_cons,
      List.length_nil, if_false]
    norm_num
    exact round2_fix_cumplimiento df

/-- Closed witness for C4 at a table having only a compliance column. -/
theorem C4_witness :
    calcular_indice_general dfCum = calcular_indice_cumplimiento dfCum := by
  have hcum : calcular_indice_cumplimiento dfCum = 100 := by
    simp [calcular_indice_cumplimiento, cumCols, calcular_indice_grupo, dfCum,
      calcular_porcentaje, List.filter]
    norm_num [round2, roundHalfEven]
  exact (C4_indice_general dfCum).2.2 (by decide) (by decide) (by decide) (by decide)
    (by rw [hcum]; norm_num)

/-! ### C1, C2: the diagnostics engine -/

theorem mem_clasificar_fst (df : DF) (ua uc : ℚ) (l : List (String × String)) (e : Problema) :
    e ∈ (clasificar df ua uc l).1 ↔
      ∃ gc ∈ l, gc.2 ∈ df.cols ∧ valorEvaluado df gc.2 < uc ∧
        e = mkProblema df gc.1 gc.2 := by
  induction l with
  | nil => simp [clasificar]
  | cons gc rest ih =>
      rcases gc with ⟨g, c⟩
      by_cases hc : c ∈ df.cols
      · by_cases hv : valorEvaluado df c < uc
        · simp only [clasificar, if_pos hc, if_pos hv, List.mem_cons, ih]
          constructor
          · rintro (he | ⟨p, hp, h1, h2, h3⟩)
            · exact ⟨(g, c), Or.inl rfl, hc, hv, he⟩
            · exact ⟨p, Or.inr hp, h1, h2, h3⟩
          · rintro ⟨p, (hp | hp), h1, h2, h3⟩
            · subst hp; exact Or.inl h3
            · exact Or.inr ⟨p, hp, h1, h2, h3⟩
        · by_cases ha : valorEvaluado df c < ua
          · simp only [clasificar, if_pos hc, if_neg hv, if_pos ha, ih]
            constructor
            · rintro ⟨p, hp, h1, h2, h3⟩
              exact ⟨p, List.mem_cons_of_mem _ hp, h1, h2, h3⟩
            · rintro ⟨p, hp, h1, h2, h3⟩
              rcases List.mem_cons.mp hp with hp | hp
              · subst hp; exact absurd h2 hv
              · exact ⟨p, hp, h1, h2, h3⟩
          · simp only [clasificar, if_pos hc, if_neg hv, if_neg ha, ih]
            constructor
            · rintro ⟨p, hp, h1, h2, h3⟩
              exact ⟨p, List.mem_cons_of_mem _ hp, h1, h2, h3⟩
            · rintro ⟨p, hp, h1, h2, h3⟩
              rcases List.mem_cons.mp hp with hp | hp
              · subst hp; exact absurd h2 hv
              · exact ⟨p, hp, h1, h2, h3⟩
      · simp only [clasificar, if_neg hc, ih]
        constructor
        · rintro ⟨p, hp, h1, h2, h3⟩
          exact ⟨p, List.mem_cons_of_mem _ hp, h1, h2, h3⟩
        · rintro ⟨p, hp, h1, h2, h3⟩
          rcases List.mem_cons.mp hp with hp | hp
          · subst hp; exact absurd h1 hc
          · exact ⟨p, hp, h1, h2, h3⟩

theorem mem_clasificar_snd (df : DF) (ua uc : ℚ) (l : List (String × String)) (e : Problema) :
    e ∈ (clasificar df ua uc l).2 ↔
      ∃ gc ∈ l, gc.2 ∈ df.cols ∧ uc ≤ valorEvaluado df gc.2 ∧
        valorEvaluado df gc.2 < ua ∧ e = mkProblema df gc.1 gc.2 := by
  induction l with
  | nil => simp [clasificar]
  | cons gc rest ih =>
      rcases gc with ⟨g, c⟩
      by_cases hc : c ∈ df.cols
      · by_cases hv : valorEvaluado df c < uc
        · simp only [clasificar, if_pos hc, if_pos hv, ih]
          constructor
          · rintro ⟨p, hp, h1, h2, h3, h4⟩
            exact ⟨p, List.mem_cons_of_mem _ hp, h1, h2, h3, h4⟩
          · rintro ⟨p, hp, h1, h2, h3, h4⟩
            rcases List.mem_cons.mp hp with hp | hp
            · subst hp; exact absurd hv (not_lt.mpr h2)
            · exact ⟨p, hp, h1, h2, h3, h4⟩
        · by_cases ha : valorEvaluado df c < ua
          · simp only [clasificar, if_pos hc, if_neg hv, if_pos ha, List.mem_cons, ih]
            constructor
            · rintro (he | ⟨p, hp, h1, h2, h3, h4⟩)
              · exact ⟨(g, c), Or.inl rfl, hc, not_lt.mp hv, ha, he⟩
              · exact ⟨p, Or.inr hp, h1, h2, h3, h4⟩
            · rintro ⟨p, (hp | hp), h1, h2, h3, h4⟩
              · subst hp; exact Or.inl h4
              · exact Or.inr ⟨p, hp, h1, h2, h3, h4⟩
          · simp only [clasificar, if_pos hc, if_neg hv, if_neg ha, ih]
            constructor
            · rintro ⟨p, hp, h1, h2, h3, h4⟩
              exact ⟨p, List.mem_cons_of_mem _ hp, h1, h2, h3, h4⟩
            · rintro ⟨p, hp, h1, h2, h3, h4⟩
              rcases List.mem_cons.mp hp with hp | hp
              · subst hp; exact absurd h3 ha
              · exact ⟨p, hp, h1, h2, h3, h4⟩
      · simp only [clasificar, if_neg hc, ih]
        constructor
        · rintro ⟨p, hp, h1, h2, h3, h4⟩
          exact ⟨p, List.mem_cons_of_mem _ hp, h1, h2, h3, h4⟩
        · rintro ⟨p, hp, h1, h2, h3, h4⟩
          rcases List.mem_cons.mp hp with hp | hp
          · subst hp; exact absurd h1 hc
          · exact ⟨p, hp, h1, h2, h3, h4⟩

theorem mem_identificar_fst (df : DF) (ua uc : ℚ) (e : Problema) :
    e ∈ (identificar_problemas df ua uc).1 ↔
      ∃ gc ∈ gruposColumnas, gc.2 ∈ df.cols ∧ valorEvaluado df gc.2 < uc ∧
        e = mkProblema df gc.1 gc.2 := by
  unfold identificar_problemas
  rw [List.Perm.mem_iff (List.perm_insertionSort valorLe _)]
  exact mem_clasificar_fst df ua uc gruposColumnas e

theorem mem_identificar_snd (df : DF) (ua uc : ℚ) (e : Problema) :
    e ∈ (identificar_problemas df ua uc).2 ↔
      ∃ gc ∈ gruposColumnas, gc.2 ∈ df.cols ∧ uc ≤ valorEvaluado df gc.2 ∧
        valorEvaluado df gc.2 < ua ∧ e = mkProblema df gc.1 gc.2 := by
  unfold identificar_problemas
  rw [List.Perm.mem_iff (List.perm_insertionSort valorLe _)]
  exact mem_clasificar_snd df ua uc gruposColumnas e

theorem pct_df10 : calcular_porcentaje df10 "entrega_en_dia_programado" = 70 := by
  simp [calcular_porcentaje, df10]
  norm_num [round2, roundHalfEven]

theorem valor_df10 : valorEvaluado df10 "entrega_en_dia_programado" = 70 := by
  unfold valorEvaluado
  rw [if_neg (by decide), pct_df10]

/-- **C1.** `identificar_problemas` puts a tracked existing indicator in the
critical list iff its polarity-adjusted value is `< umbral_critico`, in the
alert list iff `umbral_critico ≤ value < umbral_alerta`; no indicator column
appears in both lists; both lists are sorted ascending by value; and on a
10-row table with `entrega_en_dia_programado` = 1 in 7 rows the value is 70,
not critical at threshold 70 but critical at threshold 71. -/
theorem C1_identificar_problemas_clasificacion (df : DF) (ua uc : ℚ) :
    (∀ g c, (g, c) ∈ gruposColumnas → c ∈ df.cols →
      ((∃ e ∈ (identificar_problemas df ua uc).1, e.columna = c) ↔
        valorEvaluado df c < uc) ∧
      ((∃ e ∈ (identificar_problemas df ua uc).2, e.columna = c) ↔
        uc ≤ valorEvaluado df c ∧ valorEvaluado df c < ua)) ∧
    (∀ e1 ∈ (identificar_problemas df ua uc).1,
      ∀ e2 ∈ (identificar_problemas df ua uc).2, e1.columna ≠ e2.columna) ∧
    List.Sorted valorLe (identificar_problemas df ua uc).1 ∧
    List.Sorted valorLe (identificar_problemas df ua uc).2 ∧
    (calcular_porcentaje df10 "entrega_en_dia_programado" = 70 ∧
      (∀ e ∈ (identificar_problemas df10 80 70).1,
        e.columna ≠ "entrega_en_dia_programado") ∧
      (∃ e ∈ (identificar_problemas df10 80 71).1,
        e.columna = "entrega_en_dia_programado")) := by
  refine ⟨?_, ?_, ?_, ?_, pct_df10, ?_, ?_⟩
  · intro g c hgc hc
    constructor
    · constructor
      · rintro ⟨e, he, hec⟩
        rw [mem_identificar_fst] at he
        obtain ⟨p, _, _, h2, h3⟩ := he
        have hcol : e.columna = p.2 := by rw [h3]; rfl
        rw [← hec, hcol]
        exact h2
      · intro hv
        exact ⟨mkProblema df g c,
          (mem_identificar_fst df ua uc _).mpr ⟨(g, c), hgc, hc, hv, rfl⟩, rfl⟩
    · constructor
      · rintro ⟨e, he, hec⟩
        rw [mem_identificar_snd] at he
        obtain ⟨p, _, _, h2, h3, h4⟩ := he
        have hcol : e.columna = p.2 := by rw [h4]; rfl
        rw [← hec, hcol]
        exact ⟨h2, h3⟩
      · rintro ⟨hv1, hv2⟩
        exact ⟨mkProblema df g c,
          (mem_identificar_snd df ua uc _).mpr ⟨(g, c), hgc, hc, hv1, hv2, rfl⟩, rfl⟩
  · intro e1 he1 e2 he2 hne
    rw [mem_identificar_fst] at he1
    rw [mem_identificar_snd] at he2
    obtain ⟨p, _, _, h2, h3⟩ := he1
    obtain ⟨q, _, _, h5, _, h6⟩ := he2
    have hc1 : e1.columna = p.2 := by rw [h3]; rfl
    have hc2 : e2.columna = q.2 := by rw [h6]; rfl
    rw [hc1, hc2] at hne
    rw [hne] at h2
    exact absurd h2 (not_lt.mpr h5)
  · exact List.sorted_insertionSort valorLe _
  · exact List.sorted_insertionSort valorLe _
  · intro e he hec
    rw [mem_identificar_fst] at he
    obtain ⟨p, _, _, h2, h3⟩ := he
    have hcol : e.columna = p.2 := by rw [h3]; rfl
    rw [hcol] at hec
    rw [hec, valor_df10] at h2
    norm_num at h2
  · refine ⟨mkProblema df10 "Cumplimiento" "entrega_en_dia_programado",
      (mem_identificar_fst df10 80 71 _).mpr
        ⟨("Cumplimiento", "entrega_en_dia_programado"), by decide, by decide,
          ?_, rfl⟩, rfl⟩
    rw [valor_df10]
    norm_num

/-- Closed witness for C1: at the 10-row table, membership of the compliance
indicator in the alert list is equivalent to its value lying in [70, 80). -/
theorem C1_witness :
    (∃ e ∈ (identificar_problemas df10 80 70).2,
        e.columna = "entrega_en_dia_programado") ↔
      (70 ≤ valorEvaluado df10 "entrega_en_dia_programado" ∧
        valorEvaluado df10 "entrega_en_dia_programado" < 80) :=
  ((C1_identificar_problemas_clasificacion df10 80 70).1 "Cumplimiento"
    "entrega_en_dia_programado" (by decide) (by decide)).2

/-- **C2.** Every entry the diagnostics produce for a negative-polarity column
carries value `100 - percentage` and the label `"Ausencia de "` + readable
name; and a non-empty table where `trasbordo` is 1 in every row has raw
percentage 100, evaluated value 0, and always lands in the critical list
(for any positive critical threshold). -/
theorem C2_indicadores_negativos (df : DF) (ua uc : ℚ) :
    (∀ e, (e ∈ (identificar_problemas df ua uc).1 ∨
        e ∈ (identificar_problemas df ua uc).2) →
      e.columna ∈ indicadoresNegativos →
      e.valor = 100 - calcular_porcentaje df e.columna ∧
        e.indicador = "Ausencia de " ++ legible e.columna) ∧
    (df.rows ≠ [] → "trasbordo" ∈ df.cols →
      (∀ r ∈ df.rows, r "trasbordo" = 1) → 0 < uc →
      calcular_porcentaje df "trasbordo" = 100 ∧
        ∃ e ∈ (identificar_problemas df ua uc).1,
          e.columna = "trasbordo" ∧ e.valor = 0 ∧
            e.indicador = "Ausencia de Necesidad de Trasbordo") := by
  constructor
  · intro e he hneg
    have hmk : ∃ g c, e = mkProblema df g c := by
      rcases he with he | he
      · rw [mem_identificar_fst] at he
        obtain ⟨p, _, _, _, h3⟩ := he
        exact ⟨p.1, p.2, h3⟩
      · rw [mem_identificar_snd] at he
        obtain ⟨p, _, _, _, _, h4⟩ := he
        exact ⟨p.1, p.2, h4⟩
    obtain ⟨g, c, hgc⟩ := hmk
    have hcol : e.columna = c := by rw [hgc]; rfl
    rw [hcol] at hneg ⊢
    subst hgc
    unfold mkProblema valorEvaluado nombreEvaluado
    rw [if_pos hneg, if_pos hneg]
    exact ⟨rfl, rfl⟩
  · intro hrows hcol hall huc
    have hlen : (0:ℚ) < df.rows.length := by
      have := List.length_pos.mpr hrows
      exact_mod_cast this
    have hpct : calcular_porcentaje df "trasbordo" = 100 := by
      unfold calcular_porcentaje
      rw [if_neg (by push_neg; exact ⟨hcol, by simpa [List.isEmpty_iff] using hrows⟩)]
      rw [sum_col_all_one df.rows "trasbordo" hall]
      rw [div_self (ne_of_gt hlen), one_mul]
      norm_num [round2, roundHalfEven]
    have hval : valorEvaluado df "trasbordo" = 0 := by
      unfold valorEvaluado
      rw [if_pos (by decide), hpct]
      norm_num
    refine ⟨hpct, mkProblema df "Accesibilidad" "trasbordo",
      (mem_identificar_fst df ua uc _).mpr
        ⟨("Accesibilidad", "trasbordo"), by decide, hcol, by rw [hval]; exact huc,
          rfl⟩, rfl, ?_, ?_⟩
    · show valorEvaluado df "trasbordo" = 0
      exact hval
    · show nombreEvaluado "trasbordo" = "Ausencia de Necesidad de Trasbordo"
      decide

/-- Closed witness for C2 at the all-ones `trasbordo` table. -/
theorem C2_witness :
    calcular_porcentaje dfTras "trasbordo" = 100 ∧
      ∃ e ∈ (identificar_problemas dfTras 80 70).1,
        e.columna = "trasbordo" ∧ e.valor = 0 ∧
          e.indicador = "Ausencia de Necesidad de Trasbordo" :=
  (C2_indicadores_negativos dfTras 80 70).2 (by simp [dfTras]) (by decide)
    (by
      intro r hr
      have hr' : r = fun c => if c = "trasbordo" then (1:ℚ) else 0 := by
        simpa [dfTras] using hr
      rw [hr']
      norm_num)
    (by norm_num)

/-! ### C6: the recommendation generator -/

/-- Reference first-occurrence deduplication: keep the head, drop its later
duplicates, recurse. -/
def dedupFirst : List String → List String
  | [] => []
  | x :: xs => x :: dedupFirst (xs.filter (fun y => y ≠ x))
termination_by l => l.length
decreasing_by
  simp only [List.length_cons]
  exact Nat.lt_succ_of_le (List.length_filter_le _ _)

theorem foldl_ins_eq (l : List String) : ∀ acc : List String,
    l.foldl (fun acc x => if x ∈ acc then acc else acc ++ [x]) acc =
      acc ++ dedupFirst (l.filter (fun x => x ∉ acc)) := by
  induction l with
  | nil => intro acc; simp [dedupFirst]
  | cons x xs ih =>
      intro acc
      by_cases hx : x ∈ acc
      · simp only [List.foldl_cons, if_pos hx]
        rw [ih acc]
        congr 2
        simp [List.filter_cons, hx]
      · simp only [List.foldl_cons, if_neg hx]
        rw [ih (acc ++ [x])]
        have hfil : xs.filter (fun y => y ∉ acc ++ [x]) =
            (xs.filter (fun y => y ∉ acc)).filter (fun y => y ≠ x) := by
          rw [List.filter_filter]
          apply List.filter_congr
          intro a _
          simp [List.mem_append, not_or, and_comm]
        have hstep : (x :: xs).filter (fun y => y ∉ acc) =
            x :: xs.filter (fun y => y ∉ acc) := by
          simp [List.filter_cons, hx]
        rw [hstep, hfil]
        show acc ++ [x] ++ dedupFirst ((xs.filter (fun y => y ∉ acc)).filter (fun y => y ≠ x)) = _
        rw [dedupFirst]
        simp

theorem pyDedup_eq_dedupFirst (l : List String) : pyDedup l = dedupFirst l := by
  unfold pyDedup
  rw [foldl_ins_eq l []]
  simp

theorem mem_dedupFirst (l : List String) (a : String) :
    a ∈ dedupFirst l ↔ a ∈ l := by
  induction l using dedupFirst.induct with
  | case1 => simp [dedupFirst]
  | case2 x xs ih =>
      rw [dedupFirst]
      simp only [List.mem_cons, ih, List.mem_filter]
      constructor
      · rintro (h | ⟨h, _⟩)
        · exact Or.inl h
        · exact Or.inr h
      · rintro (h | h)
        · exact Or.inl h
        · by_cases hax : a = x
          · exact Or.inl hax
          · exact Or.inr ⟨h, by simpa using hax⟩

theorem dedupFirst_nodup (l : List String) : (dedupFirst l).Nodup := by
  induction l using dedupFirst.induct with
  | case1 => simp [dedupFirst]
  | case2 x xs ih =>
      rw [dedupFirst]
      refine List.Nodup.cons ?_ ih
      intro hx
      rw [mem_dedupFirst] at hx
      simp at hx

theorem dedupFirst_sublist (l : List String) : List.Sublist (dedupFirst l) l := by
  induction l using dedupFirst.induct with
  | case1 => simp [dedupFirst]
  | case2 x xs ih =>
      rw [dedupFirst]
      exact (ih.trans (List.filter_sublist xs)).cons₂ x

theorem indexOf_filter_lt (p : String → Bool) (l : List String) (a b : String)
    (ha : a ∈ l.filter p) (hb : b ∈ l.filter p)
    (h : (l.filter p).indexOf a < (l.filter p).indexOf b) :
    l.indexOf a < l.indexOf b := by
  induction l with
  | nil => simp at ha
  | cons c t ih =>
      by_cases hc : p c
      · rw [List.filter_cons_of_pos hc] at ha hb h
        by_cases hac : a = c
        · subst hac
          have hbc : b ≠ a := by
            rintro rfl
            rw [List.indexOf_cons_self] at h
            exact Nat.not_lt_zero _ h
          rw [List.indexOf_cons_self]
          rw [List.indexOf_cons_ne _ (fun hh => hbc hh.symm)]
          exact Nat.succ_pos _
        · by_cases hbc : b = c
          · subst hbc
            rw [List.indexOf_cons_self] at h
            exact absurd h (Nat.not_lt_zero _)
          · rw [List.indexOf_cons_ne _ (fun hh => hac hh.symm)] at h
            rw [List.indexOf_cons_ne _ (fun hh => hbc hh.symm)] at h
            have ha' : a ∈ t.filter p := by
              rcases List.mem_cons.mp ha with h' | h'
              · exact absurd h' hac
              · exact h'
            have hb' : b ∈ t.filter p := by
              rcases List.mem_cons.mp hb with h' | h'
              · exact absurd h' hbc
              · exact h'
            rw [List.indexOf_cons_ne _ (fun hh => hac hh.symm)]
            rw [List.indexOf_cons_ne _ (fun hh => hbc hh.symm)]
            exact Nat.succ_lt_succ (ih ha' hb' (Nat.lt_of_succ_lt_succ h))
      · rw [List.filter_cons_of_neg hc] at ha hb h
        have hac : a ≠ c := by
          rintro rfl
          exact hc (List.of_mem_filter ha)
        have hbc : b ≠ c := by
          rintro rfl
          exact hc (List.of_mem_filter hb)
        rw [List.indexOf_cons_ne _ (fun hh => hac hh.symm)]
        rw [List.indexOf_cons_ne _ (fun hh => hbc hh.symm)]
        exact Nat.succ_lt_succ (ih ha hb h)

theorem dedupFirst_pairwise (l : List String) :
    (dedupFirst l).Pairwise (fun a b => l.indexOf a < l.indexOf b) := by
  induction l using dedupFirst.induct with
  | case1 => simp [dedupFirst]
  | case2 x xs ih =>
      rw [dedupFirst]
      refine List.Pairwise.cons ?_ ?_
      · intro b hb
        rw [mem_dedupFirst, List.mem_filter] at hb
        have hbx : b ≠ x := by simpa using hb.2
        rw [List.indexOf_cons_self, List.indexOf_cons_ne _ (fun hh => hbx hh.symm)]
        exact Nat.succ_pos _
      · refine List.Pairwise.imp_of_mem ?_ ih
        intro a b hma hmb hab
        rw [mem_dedupFirst, List.mem_filter] at hma hmb
        have hax : a ≠ x := by simpa using hma.2
        have hbx : b ≠ x := by simpa using hmb.2
        have h' := indexOf_filter_lt (fun y => y ≠ x) xs a b
          (List.mem_filter.mpr hma) (List.mem_filter.mpr hmb) hab
        rw [List.indexOf_cons_ne _ (fun hh => hax hh.symm)]
        rw [List.indexOf_cons_ne _ (fun hh => hbx hh.symm)]
        exact Nat.succ_lt_succ h'

/-- **C6.** `generar_recomendaciones` always returns exactly the three fixed
long-term statements; every horizon list is duplicate-free; each of the
short/medium lists is the first-occurrence deduplication of the loop's raw
output (same members, ordered by first occurrence in the raw list); and on
empty inputs the short- and medium-term lists are empty. -/
theorem C6_generar_recomendaciones (problemas alertas : List Problema) :
    (generar_recomendaciones problemas alertas).largo_plazo = largoPlazoFijo ∧
    (generar_recomendaciones problemas alertas).corto_plazo.Nodup ∧
    (generar_recomendaciones problemas alertas).mediano_plazo.Nodup ∧
    (generar_recomendaciones problemas alertas).largo_plazo.Nodup ∧
    (∀ s, s ∈ (generar_recomendaciones problemas alertas).corto_plazo ↔
      s ∈ (recLoop (problemas.map (fun p => p.columna)) (problemas ++ alertas)).1) ∧
    (∀ s, s ∈ (generar_recomendaciones problemas alertas).mediano_plazo ↔
      s ∈ (recLoop (problemas.map (fun p => p.columna)) (problemas ++ alertas)).2) ∧
    (generar_recomendaciones problemas alertas).corto_plazo.Pairwise
      (fun a b =>
        (recLoop (problemas.map (fun p => p.columna)) (problemas ++ alertas)).1.indexOf a <
        (recLoop (problemas.map (fun p => p.columna)) (problemas ++ alertas)).1.indexOf b) ∧
    (generar_recomendaciones problemas alertas).mediano_plazo.Pairwise
      (fun a b =>
        (recLoop (problemas.map (fun p => p.columna)) (problemas ++ alertas)).2.indexOf a <
        (recLoop (problemas.map (fun p => p.columna)) (problemas ++ alertas)).2.indexOf b) ∧
    (problemas = [] → alertas = [] →
      (generar_recomendaciones problemas alertas).corto_plazo = [] ∧
      (generar_recomendaciones problemas alertas).mediano_plazo = []) := by
  have hc : (generar_recomendaciones problemas alertas).corto_plazo =
      pyDedup (recLoop (problemas.map (fun p => p.columna)) (problemas ++ alertas)).1 := rfl
  have hm : (generar_recomendaciones problemas alertas).mediano_plazo =
      pyDedup (recLoop (problemas.map (fun p => p.columna)) (problemas ++ alertas)).2 := rfl
  have hl : (generar_recomendaciones problemas alertas).largo_plazo =
      pyDedup largoPlazoFijo := rfl
  have hlfix : pyDedup largoPlazoFijo = largoPlazoFijo := by decide
  refine ⟨by rw [hl, hlfix], ?_, ?_, ?_, ?_, ?_, ?_, ?_, ?_⟩
  · rw [hc, pyDedup_eq_dedupFirst]
    exact dedupFirst_nodup _
  · rw [hm, pyDedup_eq_dedupFirst]
    exact dedupFirst_nodup _
  · rw [hl, hlfix]
    decide
  · intro s
    rw [hc, pyDedup_eq_dedupFirst]
    exact mem_dedupFirst _ s
  · intro s
    rw [hm, pyDedup_eq_dedupFirst]
    exact mem_dedupFirst _ s
  · rw [hc, pyDedup_eq_dedupFirst]
    exact dedupFirst_pairwise _
  · rw [hm, pyDedup_eq_dedupFirst]
    exact dedupFirst_pairwise _
  · rintro rfl rfl
    exact ⟨rfl, rfl⟩

/-- Closed witness for C6 on empty inputs. -/
theorem C6_witness :
    (generar_recomendaciones [] []).corto_plazo = [] ∧
      (generar_recomendaciones [] []).mediano_plazo = [] :=
  (C6_generar_recomendaciones [] []).2.2.2.2.2.2.2.2 rfl rfl

end Vercoal
